import Mathlib

/-!
Shallow embedding of the TPM CRB ISA device integration layer
(hw/tpm/tpm_crb.c) and verification of its lifecycle, reset, snapshot
and firmware-table (ACPI/AML) emission properties.

The CRB Core Engine (tpm_crb_* common code), the platform lookup
tpm_find, the PPI ACPI builder and the address constants live outside
tpm_crb.c; they are modelled abstractly from their specified contracts,
as noted on each definition.
-/

/-- Modelled from the spec: the fixed CRB register window base address.
The constant is defined in hw/acpi/tpm.h, outside tpm_crb.c; the spec
requires it to be a fixed well-known constant of this device class. -/
def TPM_CRB_ADDR_BASE : Nat := 0xFED40000

/-- Modelled from the spec: the fixed CRB register window size
(hw/acpi/tpm.h, outside tpm_crb.c). -/
def TPM_CRB_ADDR_SIZE : Nat := 0x1000

/-- Modelled from the spec: the fixed PPI RAM region base address
(hw/acpi/tpm.h, outside tpm_crb.c). -/
def TPM_PPI_ADDR_BASE : Nat := 0xFED45000

/-- TPM protocol version as reported by the CRB Core Engine
(enum TPMVersion of the platform headers). -/
inductive TPMVersion where
  | unspec
  | v1_2
  | v2_0
  deriving DecidableEq

/-- Modelled from the spec: the CRB Core Engine state (struct TPMCRBState,
declared outside tpm_crb.c). Only the facets tpm_crb.c touches are
modelled: the backend handle and the ppi flag that the property system
stores into it, the protocol version the engine reports, and the status
code its pre-save routine returns. -/
structure TPMCRBState where
  tpmbe : Option Nat
  ppi_enabled : Bool
  version : TPMVersion
  presave_status : Int
  deriving DecidableEq

/-- struct CRBState of tpm_crb.c: the ISA device wrapping a TPMCRBState. -/
structure CRBState where
  state : TPMCRBState
  deriving DecidableEq

/-- Modelled from the spec: CRB Core Engine get_version, a pure query that
is stable after realize. -/
def tpm_crb_get_version (st : TPMCRBState) : TPMVersion :=
  st.version

/-- Modelled from the spec: CRB Core Engine pre-save routine, returning a
status code (0 = success, non-zero = failure). -/
def tpm_crb_pre_save (st : TPMCRBState) : Int :=
  st.presave_status

/-- An invocation of the CRB Core Engine reset routine, recorded together
with the base address it received. -/
structure EngineResetCall where
  base : Nat
  deriving DecidableEq

/-- Modelled from the spec: CRB Core Engine reset(base_address); at this
layer its observable effect is the call itself with its base address. -/
def tpm_crb_reset (_st : TPMCRBState) (baddr : Nat) : EngineResetCall :=
  ⟨baddr⟩

/-- tpm_crb_isa_get_version: delegates to the engine version query. -/
def tpm_crb_isa_get_version (s : CRBState) : TPMVersion :=
  tpm_crb_get_version s.state

/-- tpm_crb_isa_pre_save: delegates to the engine pre-save routine. -/
def tpm_crb_isa_pre_save (s : CRBState) : Int :=
  tpm_crb_pre_save s.state

/-- The platform snapshot record of a device class: its record name, its
pre-save hook and the fields it declares (fields are listed by name). -/
structure VMStateDescription where
  name : String
  pre_save : CRBState → Int
  fields : List String

/-- vmstate_tpm_crb_isa: record name "tpm-crb", pre-save hook
tpm_crb_isa_pre_save, and an empty field list (VMSTATE_END_OF_LIST only). -/
def vmstate_tpm_crb_isa : VMStateDescription :=
  { name := ("tpm-crb"), pre_save := tpm_crb_isa_pre_save, fields := [] }

/-- Default value of the ppi property in tpm_crb_isa_properties
(DEFINE_PROP_BOOL with default true). -/
def tpm_crb_isa_ppi_default : Bool := true

/-- Modelled from the spec: tpm_find (declared in sysemu/tpm.h, outside
tpm_crb.c) resolves the platform TPM interface device: it yields the
device when exactly one exists, and null when none exists or when the
lookup is ambiguous because more than one exists. Devices are identified
by numbers here. -/
def tpm_find : List Nat → Option Nat
  | [d] => some d
  | _ => none

/-- tpm_crb_isa_reset: the device reset routine; it invokes the engine
reset with the fixed CRB register base address. -/
def tpm_crb_isa_reset (s : CRBState) : EngineResetCall :=
  tpm_crb_reset s.state TPM_CRB_ADDR_BASE

/-- Reset callbacks that can be registered with the platform reset
dispatcher (qemu_register_reset); tpm_crb.c registers exactly one. -/
inductive ResetHandler where
  | tpm_crb_isa_reset_handler
  deriving DecidableEq

/-- Semantics of a registered reset callback when the dispatcher later
invokes it on the device. -/
def runResetHandler : ResetHandler → CRBState → EngineResetCall
  | ResetHandler.tpm_crb_isa_reset_handler, s => tpm_crb_isa_reset s

/-- Memory regions this device maps (state.mmio and state.ppi.ram). -/
inductive Region where
  | crbRegs
  | ppiRam
  deriving DecidableEq

/-- Errors realize can report through errp, named after the spec taxonomy:
the singleton check (C message about at most one TPM device), the missing
backend check (C message about the required tpmdev property), and a
structured error signalled by tpm_crb_init_memory. -/
inductive TpmError where
  | singletonViolation
  | missingBackend
  | engineError (code : Nat)
  deriving DecidableEq

/-- Observable outcome of tpm_crb_isa_realize: the error reported through
errp, the subregions added to the ISA address space (base address and
region identity, in mapping order), whether the engine init_memory ran,
the bases of the engine reset invocations performed during realize, and
the callback registered with the platform reset dispatcher. -/
structure RealizeResult where
  err : Option TpmError
  mapped : List (Nat × Region)
  engineInitCalled : Bool
  engineResetBases : List Nat
  registeredReset : Option ResetHandler
  deriving DecidableEq

/-- tpm_crb_isa_realize. platformTPMs lists the TPM interface devices
present on the platform, the device being realized included; xenEnabled
models xen_enabled(); initMemoryErr is the structured error
tpm_crb_init_memory signals, if any (the engine being external, this is
modelled from the spec contract that init_memory must succeed or signal a
structured error). Following the source: check tpm_find, then the
backend, then initialize the engine memory (the source does not inspect
the error it may have signalled), map the CRB window, map the PPI window
when enabled, and finally either reset immediately (xen) or register the
reset callback with the platform dispatcher. -/
def tpm_crb_isa_realize (platformTPMs : List Nat) (s : CRBState)
    (xenEnabled : Bool) (initMemoryErr : Option Nat) : RealizeResult :=
  if (tpm_find platformTPMs).isNone then
    { err := some TpmError.singletonViolation, mapped := [],
      engineInitCalled := false, engineResetBases := [],
      registeredReset := none }
  else if s.state.tpmbe.isNone then
    { err := some TpmError.missingBackend, mapped := [],
      engineInitCalled := false, engineResetBases := [],
      registeredReset := none }
  else
    let e := initMemoryErr.map TpmError.engineError
    let m0 := [(TPM_CRB_ADDR_BASE, Region.crbRegs)]
    let m1 := if s.state.ppi_enabled then
        m0 ++ [(TPM_PPI_ADDR_BASE, Region.ppiRam)] else m0
    if xenEnabled then
      { err := e, mapped := m1, engineInitCalled := true,
        engineResetBases := [(tpm_crb_isa_reset s).base],
        registeredReset := none }
    else
      { err := e, mapped := m1, engineInitCalled := true,
        engineResetBases := [],
        registeredReset := some ResetHandler.tpm_crb_isa_reset_handler }

/-- AML resource descriptors appearing in the _CRS resource template;
readWrite is true for AML_READ_WRITE. -/
inductive AmlResource where
  | memory32Fixed (base : Nat) (size : Nat) (readWrite : Bool)
  deriving DecidableEq

/-- AML values this device emits in name declarations: aml_string,
aml_eisaid and aml_int results. -/
inductive AmlValue where
  | str (s : String)
  | eisaid (s : String)
  | int (n : Nat)
  deriving DecidableEq

/-- Items appended to the emitted TPM device node. -/
inductive AmlDevItem where
  | nameDecl (n : String) (v : AmlValue)
  | crsDecl (template : List AmlResource)
  | ppiFragment
  deriving DecidableEq

/-- A device node in an ACPI scope. -/
structure AmlDevice where
  name : String
  items : List AmlDevItem
  deriving DecidableEq

/-- Modelled from the spec: tpm_build_ppi_acpi (the external PPI builder,
outside tpm_crb.c) appends the PPI firmware-description fragment to the
device node when PPI is enabled and appends nothing otherwise. -/
def tpm_build_ppi_acpi (s : CRBState) (dev : List AmlDevItem) : List AmlDevItem :=
  if s.state.ppi_enabled then dev ++ [AmlDevItem.ppiFragment] else dev

/-- build_tpm_crb_isa_aml: emits the TPM device node into the given scope,
following the source statement by statement. -/
def build_tpm_crb_isa_aml (s : CRBState) (scope : List AmlDevice) : List AmlDevice :=
  let dev0 : List AmlDevItem :=
    if tpm_crb_isa_get_version s = TPMVersion.v2_0 then
      [AmlDevItem.nameDecl ("_HID") (AmlValue.str ("MSFT0101")),
       AmlDevItem.nameDecl ("_STR") (AmlValue.str ("TPM 2.0 Device"))]
    else
      [AmlDevItem.nameDecl ("_HID") (AmlValue.eisaid ("PNP0C31"))]
  let dev1 := dev0 ++
    [AmlDevItem.nameDecl ("_UID") (AmlValue.int 1),
     AmlDevItem.nameDecl ("_STA") (AmlValue.int 0xF)]
  let crs : List AmlResource :=
    [AmlResource.memory32Fixed TPM_CRB_ADDR_BASE TPM_CRB_ADDR_SIZE true]
  let dev2 := dev1 ++ [AmlDevItem.crsDecl crs]
  let dev3 := tpm_build_ppi_acpi s dev2
  scope ++ [{ name := ("TPM"), items := dev3 }]

/-- build_tpm_crb_isa_aml together with the device state it was given: the
source receives the device by pointer and contains no store through that
pointer, so the state component of the result is the argument itself. -/
def build_tpm_crb_isa_aml_run (s : CRBState) (scope : List AmlDevice) :
    CRBState × List AmlDevice :=
  (s, build_tpm_crb_isa_aml s scope)

/-- Tests whether a device-node item is a name declaration of the given
name. -/
def isNamed (n : String) : AmlDevItem → Bool
  | AmlDevItem.nameDecl m _ => m == n
  | _ => false

/-- Tests whether a device-node item is the _CRS resource template. -/
def isCrs : AmlDevItem → Bool
  | AmlDevItem.crsDecl _ => true
  | _ => false

/-- Tests whether a device-node item is the PPI fragment. -/
def isPpi : AmlDevItem → Bool
  | AmlDevItem.ppiFragment => true
  | _ => false

/-- The device-node items emitted for a legacy (non-2.0) device, before the
optional PPI fragment: used to spell out build_tpm_crb_isa_aml results. -/
def crbAmlItemsLegacy : List AmlDevItem :=
  [AmlDevItem.nameDecl ("_HID") (AmlValue.eisaid ("PNP0C31")),
   AmlDevItem.nameDecl ("_UID") (AmlValue.int 1),
   AmlDevItem.nameDecl ("_STA") (AmlValue.int 0xF),
   AmlDevItem.crsDecl
     [AmlResource.memory32Fixed TPM_CRB_ADDR_BASE TPM_CRB_ADDR_SIZE true]]

/-- The device-node items emitted for a version 2.0 device, before the
optional PPI fragment: used to spell out build_tpm_crb_isa_aml results. -/
def crbAmlItemsV20 : List AmlDevItem :=
  [AmlDevItem.nameDecl ("_HID") (AmlValue.str ("MSFT0101")),
   AmlDevItem.nameDecl ("_STR") (AmlValue.str ("TPM 2.0 Device")),
   AmlDevItem.nameDecl ("_UID") (AmlValue.int 1),
   AmlDevItem.nameDecl ("_STA") (AmlValue.int 0xF),
   AmlDevItem.crsDecl
     [AmlResource.memory32Fixed TPM_CRB_ADDR_BASE TPM_CRB_ADDR_SIZE true]]

/-- With two distinct devices present on the platform, the TPM lookup is
ambiguous and yields none. -/
theorem tpm_find_eq_none_of_two {l : List Nat} {a b : Nat}
    (ha : a ∈ l) (hb : b ∈ l) (hab : b ≠ a) : tpm_find l = none := by
  cases l with
  | nil => cases ha
  | cons x t =>
    cases t with
    | nil =>
      simp only [List.mem_singleton] at ha hb
      exact absurd (hb.trans ha.symm) hab
    | cons y u => rfl

/-- C1: realizing while a second TPM device of this class exists on the
platform fails with the singleton-violation error, maps no memory region,
does not initialize the engine, and registers no reset callback. -/
theorem tpm_crb_isa_realize_singleton_violation
    (tpms : List Nat) (self other : Nat) (s : CRBState) (xen : Bool)
    (ime : Option Nat) (hself : self ∈ tpms) (hother : other ∈ tpms)
    (hne : other ≠ self) :
    (tpm_crb_isa_realize tpms s xen ime).err = some TpmError.singletonViolation ∧
    (tpm_crb_isa_realize tpms s xen ime).mapped = [] ∧
    (tpm_crb_isa_realize tpms s xen ime).engineInitCalled = false ∧
    (tpm_crb_isa_realize tpms s xen ime).registeredReset = none := by
  have hfind : tpm_find tpms = none := tpm_find_eq_none_of_two hself hother hne
  simp [tpm_crb_isa_realize, hfind]

/-- Witness for C1 at a concrete two-device platform. -/
theorem tpm_crb_isa_realize_singleton_violation_witness :
    (tpm_crb_isa_realize [0, 1] ⟨⟨some 0, true, TPMVersion.v2_0, 0⟩⟩ false none).err =
      some TpmError.singletonViolation ∧
    (tpm_crb_isa_realize [0, 1] ⟨⟨some 0, true, TPMVersion.v2_0, 0⟩⟩ false none).mapped = [] ∧
    (tpm_crb_isa_realize [0, 1] ⟨⟨some 0, true, TPMVersion.v2_0, 0⟩⟩ false none).engineInitCalled = false ∧
    (tpm_crb_isa_realize [0, 1] ⟨⟨some 0, true, TPMVersion.v2_0, 0⟩⟩ false none).registeredReset = none :=
  tpm_crb_isa_realize_singleton_violation [0, 1] 0 1
    ⟨⟨some 0, true, TPMVersion.v2_0, 0⟩⟩ false none
    (by decide) (by decide) (by decide)

/-- C2: with no backend bound, realize on a singleton platform fails with
the missing-backend error and maps nothing; the backend check comes
strictly after the singleton check, so when both preconditions are
violated the singleton-violation error is the one reported. -/
theorem tpm_crb_isa_realize_backend_check
    (tpms : List Nat) (self : Nat) (s : CRBState) (xen : Bool)
    (ime : Option Nat) (hbe : s.state.tpmbe = none) :
    (tpms = [self] →
      (tpm_crb_isa_realize tpms s xen ime).err = some TpmError.missingBackend ∧
      (tpm_crb_isa_realize tpms s xen ime).mapped = []) ∧
    (∀ other : Nat, self ∈ tpms → other ∈ tpms → other ≠ self →
      (tpm_crb_isa_realize tpms s xen ime).err = some TpmError.singletonViolation ∧
      (tpm_crb_isa_realize tpms s xen ime).mapped = []) := by
  constructor
  · intro h
    subst h
    simp [tpm_crb_isa_realize, tpm_find, hbe]
  · intro other hs ho hne
    have hfind : tpm_find tpms = none := tpm_find_eq_none_of_two hs ho hne
    simp [tpm_crb_isa_realize, hfind]

/-- Witness for C2 at a concrete backendless device on a singleton
platform. -/
theorem tpm_crb_isa_realize_backend_check_witness :
    (tpm_crb_isa_realize [0] ⟨⟨none, true, TPMVersion.v2_0, 0⟩⟩ false none).err =
      some TpmError.missingBackend ∧
    (tpm_crb_isa_realize [0] ⟨⟨none, true, TPMVersion.v2_0, 0⟩⟩ false none).mapped = [] :=
  (tpm_crb_isa_realize_backend_check [0] 0 ⟨⟨none, true, TPMVersion.v2_0, 0⟩⟩
    false none rfl).1 rfl

/-- C3 counterexample: with the engine signalling structured error 7 from
init_memory, realize at a concrete configuration still maps both the CRB
and the PPI region and still registers the reset callback, so the mapping
is not rolled back and the device is not left unmapped on engine error. -/
theorem tpm_crb_isa_realize_not_atomic :
    (tpm_crb_isa_realize [0] ⟨⟨some 0, true, TPMVersion.v2_0, 0⟩⟩ false (some 7)).err =
      some (TpmError.engineError 7) ∧
    (tpm_crb_isa_realize [0] ⟨⟨some 0, true, TPMVersion.v2_0, 0⟩⟩ false (some 7)).mapped =
      [(TPM_CRB_ADDR_BASE, Region.crbRegs), (TPM_PPI_ADDR_BASE, Region.ppiRam)] ∧
    (tpm_crb_isa_realize [0] ⟨⟨some 0, true, TPMVersion.v2_0, 0⟩⟩ false (some 7)).registeredReset =
      some ResetHandler.tpm_crb_isa_reset_handler :=
  ⟨rfl, rfl, rfl⟩

/-- C3 amended: when init_memory signals a structured error during realize,
the error is propagated to the caller through errp, but realize proceeds
regardless: the regions mapped and the reset strategy installed are
exactly those of the error-free run; no rollback or unusable-marking
happens in this layer. -/
theorem tpm_crb_isa_realize_maps_despite_engine_error
    (self : Nat) (s : CRBState) (xen : Bool) (e : Nat)
    (hbe : s.state.tpmbe.isSome = true) :
    (tpm_crb_isa_realize [self] s xen (some e)).err = some (TpmError.engineError e) ∧
    (tpm_crb_isa_realize [self] s xen (some e)).mapped =
      (tpm_crb_isa_realize [self] s xen none).mapped ∧
    (tpm_crb_isa_realize [self] s xen (some e)).registeredReset =
      (tpm_crb_isa_realize [self] s xen none).registeredReset ∧
    (tpm_crb_isa_realize [self] s xen (some e)).engineResetBases =
      (tpm_crb_isa_realize [self] s xen none).engineResetBases := by
  rcases s with ⟨⟨be, ppi, ver, pre⟩⟩
  cases be with
  | none => simp at hbe
  | some b => cases xen <;> cases ppi <;> exact ⟨rfl, rfl, rfl, rfl⟩

/-- Witness for the amended C3 at a concrete configuration. -/
theorem tpm_crb_isa_realize_maps_despite_engine_error_witness :
    (tpm_crb_isa_realize [0] ⟨⟨some 0, true, TPMVersion.v2_0, 0⟩⟩ true (some 3)).err =
      some (TpmError.engineError 3) ∧
    (tpm_crb_isa_realize [0] ⟨⟨some 0, true, TPMVersion.v2_0, 0⟩⟩ true (some 3)).mapped =
      (tpm_crb_isa_realize [0] ⟨⟨some 0, true, TPMVersion.v2_0, 0⟩⟩ true none).mapped :=
  ⟨(tpm_crb_isa_realize_maps_despite_engine_error 0
      ⟨⟨some 0, true, TPMVersion.v2_0, 0⟩⟩ true 3 rfl).1,
   (tpm_crb_isa_realize_maps_despite_engine_error 0
      ⟨⟨some 0, true, TPMVersion.v2_0, 0⟩⟩ true 3 rfl).2.1⟩

/-- C4: a successful realize reports no error, maps exactly one CRB
register region at TPM_CRB_ADDR_BASE, maps exactly one PPI RAM region at
TPM_PPI_ADDR_BASE precisely when the ppi flag is set, and the ppi
property defaults to true. -/
theorem tpm_crb_isa_realize_success_mappings
    (self : Nat) (s : CRBState) (xen : Bool)
    (hbe : s.state.tpmbe.isSome = true) :
    (tpm_crb_isa_realize [self] s xen none).err = none ∧
    (tpm_crb_isa_realize [self] s xen none).mapped.filter
        (fun p => decide (p.2 = Region.crbRegs)) =
      [(TPM_CRB_ADDR_BASE, Region.crbRegs)] ∧
    (tpm_crb_isa_realize [self] s xen none).mapped.filter
        (fun p => decide (p.2 = Region.ppiRam)) =
      (if s.state.ppi_enabled then [(TPM_PPI_ADDR_BASE, Region.ppiRam)] else []) ∧
    tpm_crb_isa_ppi_default = true := by
  rcases s with ⟨⟨be, ppi, ver, pre⟩⟩
  cases be with
  | none => simp at hbe
  | some b => cases xen <;> cases ppi <;> exact ⟨rfl, rfl, rfl, rfl⟩

/-- Witness for C4 at a concrete PPI-enabled configuration. -/
theorem tpm_crb_isa_realize_success_mappings_witness :
    (tpm_crb_isa_realize [0] ⟨⟨some 0, true, TPMVersion.v2_0, 0⟩⟩ false none).err = none ∧
    (tpm_crb_isa_realize [0] ⟨⟨some 0, true, TPMVersion.v2_0, 0⟩⟩ false none).mapped.filter
        (fun p => decide (p.2 = Region.crbRegs)) =
      [(TPM_CRB_ADDR_BASE, Region.crbRegs)] :=
  ⟨(tpm_crb_isa_realize_success_mappings 0
      ⟨⟨some 0, true, TPMVersion.v2_0, 0⟩⟩ false rfl).1,
   (tpm_crb_isa_realize_success_mappings 0
      ⟨⟨some 0, true, TPMVersion.v2_0, 0⟩⟩ false rfl).2.1⟩

/-- C5: the reset-trigger strategy is exclusive and fixed at realize time:
under xen the engine reset runs synchronously exactly once during realize
and nothing is registered with the dispatcher; otherwise nothing runs
during realize and the reset callback is registered; the registered
callback is the same routine, and it always passes the fixed CRB base. -/
theorem tpm_crb_isa_reset_strategy
    (self : Nat) (s : CRBState) (ime : Option Nat)
    (hbe : s.state.tpmbe.isSome = true) :
    ((tpm_crb_isa_realize [self] s true ime).engineResetBases = [TPM_CRB_ADDR_BASE] ∧
     (tpm_crb_isa_realize [self] s true ime).registeredReset = none) ∧
    ((tpm_crb_isa_realize [self] s false ime).engineResetBases = [] ∧
     (tpm_crb_isa_realize [self] s false ime).registeredReset =
        some ResetHandler.tpm_crb_isa_reset_handler) ∧
    (∀ s2 : CRBState,
      runResetHandler ResetHandler.tpm_crb_isa_reset_handler s2 = tpm_crb_isa_reset s2 ∧
      (tpm_crb_isa_reset s2).base = TPM_CRB_ADDR_BASE) := by
  rcases s with ⟨⟨be, ppi, ver, pre⟩⟩
  cases be with
  | none => simp at hbe
  | some b =>
    refine ⟨?_, ?_, fun s2 => ⟨rfl, rfl⟩⟩
    · cases ppi <;> exact ⟨rfl, rfl⟩
    · cases ppi <;> exact ⟨rfl, rfl⟩

/-- Witness for C5 at a concrete configuration. -/
theorem tpm_crb_isa_reset_strategy_witness :
    ((tpm_crb_isa_realize [0] ⟨⟨some 0, true, TPMVersion.v2_0, 0⟩⟩ true none).engineResetBases =
        [TPM_CRB_ADDR_BASE] ∧
     (tpm_crb_isa_realize [0] ⟨⟨some 0, true, TPMVersion.v2_0, 0⟩⟩ true none).registeredReset =
        none) ∧
    ((tpm_crb_isa_realize [0] ⟨⟨some 0, true, TPMVersion.v2_0, 0⟩⟩ false none).engineResetBases = [] ∧
     (tpm_crb_isa_realize [0] ⟨⟨some 0, true, TPMVersion.v2_0, 0⟩⟩ false none).registeredReset =
        some ResetHandler.tpm_crb_isa_reset_handler) :=
  ⟨(tpm_crb_isa_reset_strategy 0 ⟨⟨some 0, true, TPMVersion.v2_0, 0⟩⟩ none rfl).1,
   (tpm_crb_isa_reset_strategy 0 ⟨⟨some 0, true, TPMVersion.v2_0, 0⟩⟩ none rfl).2.1⟩

/-- C6: the emitted device node carries, when the engine reports version
2.0, the hardware-ID string MSFT0101 and the description string
TPM 2.0 Device, and otherwise the legacy EISA hardware-ID PNP0C31 and no
description string; in both cases it carries unique-ID 1, status 0xF, and
exactly one read/write fixed memory resource descriptor spanning
TPM_CRB_ADDR_BASE and TPM_CRB_ADDR_SIZE. -/
theorem build_tpm_crb_isa_aml_node_contents (s : CRBState) (scope : List AmlDevice) :
    ∃ its : List AmlDevItem,
      build_tpm_crb_isa_aml s scope = scope ++ [{ name := ("TPM"), items := its }] ∧
      its.filter (isNamed ("_HID")) =
        (if tpm_crb_isa_get_version s = TPMVersion.v2_0 then
          [AmlDevItem.nameDecl ("_HID") (AmlValue.str ("MSFT0101"))]
         else
          [AmlDevItem.nameDecl ("_HID") (AmlValue.eisaid ("PNP0C31"))]) ∧
      its.filter (isNamed ("_STR")) =
        (if tpm_crb_isa_get_version s = TPMVersion.v2_0 then
          [AmlDevItem.nameDecl ("_STR") (AmlValue.str ("TPM 2.0 Device"))]
         else []) ∧
      AmlDevItem.nameDecl ("_UID") (AmlValue.int 1) ∈ its ∧
      AmlDevItem.nameDecl ("_STA") (AmlValue.int 0xF) ∈ its ∧
      its.filter isCrs =
        [AmlDevItem.crsDecl
          [AmlResource.memory32Fixed TPM_CRB_ADDR_BASE TPM_CRB_ADDR_SIZE true]] := by
  rcases s with ⟨⟨be, ppi, ver, pre⟩⟩
  cases ver <;> cases ppi
  · exact ⟨crbAmlItemsLegacy, rfl, rfl, rfl, by decide, by decide, rfl⟩
  · exact ⟨crbAmlItemsLegacy ++ [AmlDevItem.ppiFragment],
      rfl, rfl, rfl, by decide, by decide, rfl⟩
  · exact ⟨crbAmlItemsLegacy, rfl, rfl, rfl, by decide, by decide, rfl⟩
  · exact ⟨crbAmlItemsLegacy ++ [AmlDevItem.ppiFragment],
      rfl, rfl, rfl, by decide, by decide, rfl⟩
  · exact ⟨crbAmlItemsV20, rfl, rfl, rfl, by decide, by decide, rfl⟩
  · exact ⟨crbAmlItemsV20 ++ [AmlDevItem.ppiFragment],
      rfl, rfl, rfl, by decide, by decide, rfl⟩

/-- C7: the ppi flag controls both guest-visible artifacts consistently:
the PPI RAM region is mapped by realize precisely when the flag is set,
and the emitted device node contains the PPI fragment precisely when the
flag is set. -/
theorem tpm_crb_isa_ppi_consistency (self : Nat) (s : CRBState) (xen : Bool)
    (hbe : s.state.tpmbe.isSome = true) :
    ((tpm_crb_isa_realize [self] s xen none).mapped.filter
        (fun p => decide (p.2 = Region.ppiRam)) =
      (if s.state.ppi_enabled then [(TPM_PPI_ADDR_BASE, Region.ppiRam)] else [])) ∧
    (∀ scope : List AmlDevice, ∃ its : List AmlDevItem,
      build_tpm_crb_isa_aml s scope = scope ++ [{ name := ("TPM"), items := its }] ∧
      its.filter isPpi =
        (if s.state.ppi_enabled then [AmlDevItem.ppiFragment] else [])) := by
  rcases s with ⟨⟨be, ppi, ver, pre⟩⟩
  cases be with
  | none => simp at hbe
  | some b =>
    cases ppi <;> cases xen <;> cases ver <;>
      exact ⟨rfl, fun scope => ⟨_, rfl, rfl⟩⟩

/-- Witness for C7 at a concrete PPI-disabled configuration. -/
theorem tpm_crb_isa_ppi_consistency_witness :
    (tpm_crb_isa_realize [0] ⟨⟨some 0, false, TPMVersion.v2_0, 0⟩⟩ false none).mapped.filter
        (fun p => decide (p.2 = Region.ppiRam)) =
      (if (⟨⟨some 0, false, TPMVersion.v2_0, 0⟩⟩ : CRBState).state.ppi_enabled then
        [(TPM_PPI_ADDR_BASE, Region.ppiRam)] else []) :=
  (tpm_crb_isa_ppi_consistency 0 ⟨⟨some 0, false, TPMVersion.v2_0, 0⟩⟩ false rfl).1

/-- C8: the pre-save hook of the serialized record delegates to the engine
pre-save and returns its status unmodified, and the record declares no
fields of its own. -/
theorem tpm_crb_isa_pre_save_delegation :
    (∀ s : CRBState, vmstate_tpm_crb_isa.pre_save s = tpm_crb_pre_save s.state) ∧
    vmstate_tpm_crb_isa.fields = [] ∧
    vmstate_tpm_crb_isa.name = ("tpm-crb") :=
  ⟨fun _ => rfl, rfl, rfl⟩

/-- C9: firmware-table emission is pure with respect to device state: it
returns the device state unchanged and only appends one node to the
supplied scope. -/
theorem build_tpm_crb_isa_aml_pure (s : CRBState) (scope : List AmlDevice) :
    (build_tpm_crb_isa_aml_run s scope).1 = s ∧
    ∃ d : AmlDevice, (build_tpm_crb_isa_aml_run s scope).2 = scope ++ [d] :=
  ⟨rfl, ⟨_, rfl⟩⟩

/-- C10: in every realize outcome, the CRB window is mapped at
TPM_CRB_ADDR_BASE, every engine reset invocation performed during realize
received exactly that base, and any reset callback registered with the
dispatcher passes exactly that base whenever it later runs. -/
theorem tpm_crb_isa_reset_base_matches_mapping (self : Nat) (s : CRBState)
    (xen : Bool) (ime : Option Nat) (hbe : s.state.tpmbe.isSome = true) :
    ((TPM_CRB_ADDR_BASE, Region.crbRegs) ∈
        (tpm_crb_isa_realize [self] s xen ime).mapped) ∧
    (∀ b ∈ (tpm_crb_isa_realize [self] s xen ime).engineResetBases,
      b = TPM_CRB_ADDR_BASE) ∧
    (∀ h : ResetHandler, ∀ s2 : CRBState,
      (tpm_crb_isa_realize [self] s xen ime).registeredReset = some h →
      (runResetHandler h s2).base = TPM_CRB_ADDR_BASE) := by
  rcases s with ⟨⟨be, ppi, ver, pre⟩⟩
  cases be with
  | none => simp at hbe
  | some b =>
    refine ⟨?_, ?_, ?_⟩
    · cases xen <;> cases ppi <;>
        first
        | exact (by decide : (TPM_CRB_ADDR_BASE, Region.crbRegs) ∈
            [(TPM_CRB_ADDR_BASE, Region.crbRegs)])
        | exact (by decide : (TPM_CRB_ADDR_BASE, Region.crbRegs) ∈
            [(TPM_CRB_ADDR_BASE, Region.crbRegs), (TPM_PPI_ADDR_BASE, Region.ppiRam)])
    · cases xen <;> cases ppi <;>
        first
        | exact (by decide : ∀ b2 ∈ ([] : List Nat), b2 = TPM_CRB_ADDR_BASE)
        | exact (by decide : ∀ b2 ∈ [TPM_CRB_ADDR_BASE], b2 = TPM_CRB_ADDR_BASE)
    · intro h s2 hreg
      cases h
      rfl

/-- Witness for C10 at concrete configurations in both reset modes. -/
theorem tpm_crb_isa_reset_base_matches_mapping_witness :
    ((TPM_CRB_ADDR_BASE, Region.crbRegs) ∈
        (tpm_crb_isa_realize [0] ⟨⟨some 0, true, TPMVersion.v2_0, 0⟩⟩ true none).mapped) ∧
    (runResetHandler ResetHandler.tpm_crb_isa_reset_handler
        ⟨⟨some 0, true, TPMVersion.v2_0, 0⟩⟩).base = TPM_CRB_ADDR_BASE :=
  ⟨(tpm_crb_isa_reset_base_matches_mapping 0
      ⟨⟨some 0, true, TPMVersion.v2_0, 0⟩⟩ true none rfl).1,
   (tpm_crb_isa_reset_base_matches_mapping 0
      ⟨⟨some 0, true, TPMVersion.v2_0, 0⟩⟩ false none rfl).2.2
     ResetHandler.tpm_crb_isa_reset_handler
     ⟨⟨some 0, true, TPMVersion.v2_0, 0⟩⟩ rfl⟩
